import Mathlib

/-!
Shallow embedding of the NekoTick "Trust Core" (src-tauri/src/credentials and
src-tauri/src/license) together with proofs about the claims of its
specification.

Embedding conventions:
* Rust `i64` timestamps are modelled as `Int` (all arithmetic in the source is
  far from the i64 boundaries and the source relies on ordinary integer
  arithmetic).
* External cryptographic primitives (the `hmac`/`sha2`/`aes-gcm` crates) are
  modelled as ideal primitives: `hex(HMAC-SHA256(key, msg))` is modelled as the
  injective pair `(key, msg)` (`MacTag`), SHA-256 key derivation as the
  injective concatenation of its input, and AES-256-GCM as an ideal AEAD whose
  decryption succeeds exactly under the key that produced the ciphertext.
* Rust's `format!("{}", _)` rendering of `i64` and `bool` (external library
  code) is modelled by the executable decimal renderer `intDecimal` /
  `boolDecimal` below, which produce exactly the strings Rust produces.
* Filesystem state is made explicit: a sealed file is either absent (`none`)
  or an `EncFile` (the pair written by `save`); `load` returns its result
  together with a `deleted` flag recording whether it unlinked the file, and
  the manager's operations return the record they write back (if any).
-/

namespace NekoTick

/-! ### Decimal rendering (model of Rust `Display` for `i64` and `bool`) -/

/-- Decimal digits, most significant first, with structural fuel (any fuel
above the digit count gives the digits of `n`; `natDecChars` supplies
`n + 1`, which always suffices). -/
def natDecCharsGo (fuel : Nat) (n : Nat) : List Char :=
  match fuel with
  | 0 => []
  | fuel + 1 =>
    if n < 10 then [Nat.digitChar n]
    else natDecCharsGo fuel (n / 10) ++ [Nat.digitChar (n % 10)]

/-- Decimal digits of `n`, most significant first (the characters Rust's
`format!("{}", n)` emits for a nonnegative integer). -/
def natDecChars (n : Nat) : List Char := natDecCharsGo (n + 1) n

/-- Decimal rendering of a natural number. -/
def natDecimal (n : Nat) : String := ⟨natDecChars n⟩

/-- Decimal rendering of an integer, the output of Rust `format!("{}", i)` for
an `i64`. -/
def intDecimal (i : Int) : String :=
  if i < 0 then "-" ++ natDecimal i.natAbs else natDecimal i.natAbs

/-- Rendering of a Rust `bool` by `format!("{}", b)`. -/
def boolDecimal (b : Bool) : String := if b then "true" else "false"

/-- Numeric value of a digit string, used to invert `natDecChars`. -/
def decValue (l : List Char) : Nat :=
  l.foldl (fun a c => 10 * a + (c.toNat - 48)) 0

/-! ### Canonical colon-joined messages

Both records sign a six-component, colon-joined message (see
`compute_signature` in `license/store.rs` and `compute_signature_internal` in
`credentials/encrypted_store.rs`). The cancellation lemmas below recover a
single component from an equality of messages whose other components agree. -/

/-- A six-component colon-joined message, at the character-list level. -/
def msg6 (a b c d e f : List Char) : List Char :=
  a ++ ':' :: (b ++ ':' :: (c ++ ':' :: (d ++ ':' :: (e ++ ':' :: f))))

/-! ### Ideal MAC (model of lower-case `hex(HMAC-SHA256(key, message))`) -/

/-- Ideal model of the hex-encoded HMAC-SHA256 tag computed by the external
`hmac` crate: the tag is identified with the (key, message) pair, which makes
the MAC a perfectly collision-free function of key and message. Tag equality
(the source's `constant_time_eq` on the two hex strings) becomes decidable
equality of the pairs. -/
structure MacTag where
  key : String
  message : String
deriving DecidableEq, Repr

/-- `hex::encode(HMAC-SHA256(key, message))`, idealized. -/
def hmacSha256Hex (key message : String) : MacTag := ⟨key, message⟩

/-! ### Error types (license/error.rs and credentials/error.rs) -/

/-- `LicenseError` from `license/error.rs`. Note: it has no `DeviceMismatch`
and no dedicated decryption-failure variant; AEAD rejection is reported as
`CryptoError "Decryption failed"` by `LicenseStore::load`. -/
inductive LicenseError where
  | DeviceIdError (msg : String)
  | StorageError (msg : String)
  | SignatureInvalid
  | CryptoError (msg : String)
  | NetworkError (msg : String)
  | ApiError (code message : String)
  | NotFound
  | TimeTamperingDetected
  | SerializationError (msg : String)
deriving DecidableEq, Repr

/-- `CredentialError` from `credentials/error.rs`. -/
inductive CredentialError where
  | NotFound
  | DecryptionFailed
  | DeviceMismatch
  | SignatureInvalid
  | StorageError (msg : String)
  | MigrationError (msg : String)
  | SerializationError (msg : String)
deriving DecidableEq, Repr

/-! ### LicenseData (license/store.rs) -/

/-- `LicenseData` from `license/store.rs`. -/
structure LicenseData where
  license_key : Option String
  device_id : String
  activated_at : Option Int
  last_validated_at : Option Int
  trial_started_at : Option Int
  trial_used : Bool
  last_seen_utc_time : Int
  signature : MacTag
deriving DecidableEq, Repr

namespace LicenseData

/-- `LicenseData::compute_signature` (static): HMAC-SHA256 over the canonical
colon-joined message, keyed by `device_id`. -/
def compute_signature (device_id license_key : String)
    (activated_at last_validated_at trial_started_at : Int)
    (trial_used : Bool) (last_seen_utc_time : Int) : MacTag :=
  hmacSha256Hex device_id
    (license_key ++ ":" ++ intDecimal activated_at ++ ":" ++
      intDecimal last_validated_at ++ ":" ++ intDecimal trial_started_at ++ ":" ++
      boolDecimal trial_used ++ ":" ++ intDecimal last_seen_utc_time)

/-- `LicenseData::compute_signature_internal`: absent optional fields collapse
to `""` (license key) and `0` (timestamps) before signing. -/
def compute_signature_internal (r : LicenseData) : MacTag :=
  compute_signature r.device_id (r.license_key.getD "")
    (r.activated_at.getD 0) (r.last_validated_at.getD 0)
    (r.trial_started_at.getD 0) r.trial_used r.last_seen_utc_time

/-- `LicenseData::verify_signature`: constant-time comparison of the stored
tag with the recomputed one (equality of ideal tags). -/
def verify_signature (r : LicenseData) : Bool :=
  r.signature == r.compute_signature_internal

/-- `LicenseData::new_with_license`. `now` stands for the source's
`chrono::Utc::now().timestamp()` read. -/
def new_with_license (license_key device_id : String)
    (activated_at last_validated_at : Int) (now : Int) : LicenseData :=
  let data : LicenseData :=
    { license_key := some license_key
      device_id := device_id
      activated_at := some activated_at
      last_validated_at := some last_validated_at
      trial_started_at := none
      trial_used := true
      last_seen_utc_time := now
      signature := ⟨"", ""⟩ }
  { data with signature := data.compute_signature_internal }

/-- `LicenseData::new_trial`. `now` stands for `Utc::now().timestamp()`. -/
def new_trial (device_id : String) (now : Int) : LicenseData :=
  let data : LicenseData :=
    { license_key := none
      device_id := device_id
      activated_at := none
      last_validated_at := none
      trial_started_at := some now
      trial_used := false
      last_seen_utc_time := now
      signature := ⟨"", ""⟩ }
  { data with signature := data.compute_signature_internal }

/-- `LicenseData::update_signature`. -/
def update_signature (r : LicenseData) : LicenseData :=
  { r with signature := r.compute_signature_internal }

/-- `LicenseData::update_seen_time_and_signature`; `now` models the
`Utc::now()` read. -/
def update_seen_time_and_signature (r : LicenseData) (now : Int) : LicenseData :=
  ({ r with last_seen_utc_time := now } : LicenseData).update_signature

/-- `LicenseData::update_validation_time`. -/
def update_validation_time (r : LicenseData) (timestamp now : Int) : LicenseData :=
  ({ r with last_validated_at := some timestamp } : LicenseData).update_seen_time_and_signature now

/-- `LicenseData::set_license`. -/
def set_license (r : LicenseData) (license_key : String)
    (activated_at last_validated_at now : Int) : LicenseData :=
  ({ r with
      license_key := some license_key
      activated_at := some activated_at
      last_validated_at := some last_validated_at
      trial_used := true } : LicenseData).update_seen_time_and_signature now

/-- `LicenseData::is_trial_only`. -/
def is_trial_only (r : LicenseData) : Bool :=
  r.license_key.isNone && r.trial_started_at.isSome

/-- `LicenseData::has_license`. -/
def has_license (r : LicenseData) : Bool :=
  r.license_key.isSome

end LicenseData

/-! ### StoredCredentials (credentials/encrypted_store.rs) -/

/-- The per-record-type salt `CREDENTIALS_SALT`. -/
def CREDENTIALS_SALT : String := "nekotick_credentials_v1"

/-- `StoredCredentials` from `credentials/encrypted_store.rs`. -/
structure StoredCredentials where
  device_id : String
  access_token : String
  refresh_token : String
  expires_at : Int
  user_email : Option String
  folder_id : Option String
  signature : MacTag
deriving DecidableEq, Repr

namespace StoredCredentials

/-- `StoredCredentials::compute_signature_internal`: HMAC-SHA256 keyed by
`device_id` over the colon-joined message ending in the fixed salt. -/
def compute_signature_internal (c : StoredCredentials) : MacTag :=
  hmacSha256Hex c.device_id
    (c.access_token ++ ":" ++ c.refresh_token ++ ":" ++ intDecimal c.expires_at ++ ":" ++
      (c.user_email.getD "") ++ ":" ++ (c.folder_id.getD "") ++ ":" ++ CREDENTIALS_SALT)

/-- `StoredCredentials::verify_signature`. -/
def verify_signature (c : StoredCredentials) : Bool :=
  c.signature == c.compute_signature_internal

/-- `StoredCredentials::new`. -/
def new (device_id access_token refresh_token : String) (expires_at : Int)
    (user_email folder_id : Option String) : StoredCredentials :=
  let creds : StoredCredentials :=
    { device_id := device_id
      access_token := access_token
      refresh_token := refresh_token
      expires_at := expires_at
      user_email := user_email
      folder_id := folder_id
      signature := ⟨"", ""⟩ }
  { creds with signature := creds.compute_signature_internal }

/-- `StoredCredentials::update_access_token`. -/
def update_access_token (c : StoredCredentials) (access_token : String)
    (expires_at : Int) : StoredCredentials :=
  let c' : StoredCredentials := { c with access_token := access_token, expires_at := expires_at }
  { c' with signature := c'.compute_signature_internal }

/-- `StoredCredentials::update_folder_id`. -/
def update_folder_id (c : StoredCredentials) (folder_id : String) : StoredCredentials :=
  let c' : StoredCredentials := { c with folder_id := some folder_id }
  { c' with signature := c'.compute_signature_internal }

/-- `StoredCredentials::is_token_expiring`; `now` models the
`Utc::now().timestamp()` read. -/
def is_token_expiring (c : StoredCredentials) (now : Int) : Bool :=
  let five_minutes : Int := 5 * 60
  c.expires_at - now < five_minutes

end StoredCredentials

/-! ### Sealed stores (ideal AEAD model)

`save` serializes the record to JSON and AES-256-GCM-encrypts it under the key
derived from the fingerprint; the file holds `nonce || ciphertext`. In the
ideal-AEAD model a sealed file is the pair (derived key, record): decryption
succeeds exactly under the deriving key (AEAD authenticity), and the JSON
round-trip is the identity. The filesystem slot is `Option (EncFile _)`. -/

/-- A sealed file as written by `save`: the AEAD key it was encrypted under,
plus the record serialized inside. -/
structure EncFile (α : Type) where
  encKey : String
  payload : α
deriving DecidableEq, Repr

/-- The result of a `load`, together with whether the call unlinked the file. -/
structure LoadOutcome (ε α : Type) where
  result : Except ε α
  deleted : Bool
deriving Repr

/-- `LicenseStore` (license/store.rs); only the fingerprint matters to the
model (the path is fixed to `.license.dat` in the data directory). -/
structure LicenseStore where
  device_id : String
deriving DecidableEq, Repr

namespace LicenseStore

/-- `LicenseStore::derive_encryption_key`: SHA-256 of
`device_id || "nekotick_license_v1"`, idealized to the (injective) hash
input. -/
def derive_encryption_key (s : LicenseStore) : String :=
  s.device_id ++ "nekotick_license_v1"

/-- `LicenseStore::save`: encrypt under the derived key and write. -/
def save (s : LicenseStore) (data : LicenseData) : EncFile LicenseData :=
  ⟨s.derive_encryption_key, data⟩

/-- The post-decrypt validation of `LicenseStore::load` (lines 251-261):
signature first, then device binding; both failures yield `SignatureInvalid`
and neither deletes the file. -/
def postDecrypt (s : LicenseStore) (data : LicenseData) :
    LoadOutcome LicenseError LicenseData :=
  if ¬ data.verify_signature then ⟨.error .SignatureInvalid, false⟩
  else if data.device_id ≠ s.device_id then ⟨.error .SignatureInvalid, false⟩
  else ⟨.ok data, false⟩

/-- `LicenseStore::load`: absent file is `NotFound`; AEAD rejection under a
non-matching key is `CryptoError "Decryption failed"`; then the post-decrypt
validation. No path deletes the file. -/
def load (s : LicenseStore) (file : Option (EncFile LicenseData)) :
    LoadOutcome LicenseError LicenseData :=
  match file with
  | none => ⟨.error .NotFound, false⟩
  | some f =>
    if f.encKey ≠ s.derive_encryption_key then
      ⟨.error (.CryptoError "Decryption failed"), false⟩
    else s.postDecrypt f.payload

end LicenseStore

/-- `CredentialStore` (credentials/encrypted_store.rs). -/
structure CredentialStore where
  device_id : String
deriving DecidableEq, Repr

namespace CredentialStore

/-- `CredentialStore::derive_encryption_key`: SHA-256 of
`device_id || CREDENTIALS_SALT`, idealized to the hash input. -/
def derive_encryption_key (s : CredentialStore) : String :=
  s.device_id ++ CREDENTIALS_SALT

/-- `CredentialStore::save`. -/
def save (s : CredentialStore) (creds : StoredCredentials) : EncFile StoredCredentials :=
  ⟨s.derive_encryption_key, creds⟩

/-- The post-decrypt validation of `CredentialStore::load` (lines 195-208):
device binding first (delete + `DeviceMismatch`), then the HMAC signature
(delete + `SignatureInvalid`). -/
def postDecrypt (s : CredentialStore) (creds : StoredCredentials) :
    LoadOutcome CredentialError StoredCredentials :=
  if creds.device_id ≠ s.device_id then ⟨.error .DeviceMismatch, true⟩
  else if ¬ creds.verify_signature then ⟨.error .SignatureInvalid, true⟩
  else ⟨.ok creds, false⟩

/-- `CredentialStore::load`: AEAD rejection is `DecryptionFailed` (without
deleting); then the post-decrypt validation. -/
def load (s : CredentialStore) (file : Option (EncFile StoredCredentials)) :
    LoadOutcome CredentialError StoredCredentials :=
  match file with
  | none => ⟨.error .NotFound, false⟩
  | some f =>
    if f.encKey ≠ s.derive_encryption_key then ⟨.error .DecryptionFailed, false⟩
    else s.postDecrypt f.payload

end CredentialStore

/-! ### License manager (license/manager.rs) -/

/-- `VALIDATION_INTERVAL_SECS = 72 * 60 * 60`. -/
def VALIDATION_INTERVAL_SECS : Int := 72 * 60 * 60

/-- `GRACE_PERIOD_SECS = 7 * 24 * 60 * 60`. -/
def GRACE_PERIOD_SECS : Int := 7 * 24 * 60 * 60

/-- `TRIAL_DURATION_SECS = 7 * 24 * 60 * 60`. -/
def TRIAL_DURATION_SECS : Int := 7 * 24 * 60 * 60

/-- `LicenseStatus` from license/manager.rs. -/
structure LicenseStatus where
  is_pro : Bool
  is_trial : Bool
  trial_ends_at : Option Int
  license_key : Option String
  activated_at : Option Int
  last_validated_at : Option Int
  needs_validation : Bool
  in_grace_period : Bool
  grace_period_ends_at : Option Int
  time_tamper_detected : Bool
deriving DecidableEq, Repr

/-- `LicenseStatus::default`. -/
def LicenseStatus.default : LicenseStatus :=
  { is_pro := false
    is_trial := false
    trial_ends_at := none
    license_key := none
    activated_at := none
    last_validated_at := none
    needs_validation := false
    in_grace_period := false
    grace_period_ends_at := none
    time_tamper_detected := false }

/-- `ValidationResult` from license/manager.rs. -/
structure ValidationResult where
  success : Bool
  downgraded : Bool
  in_grace_period : Bool
deriving DecidableEq, Repr

/-- The outcome of the `/validate` API call as seen by `validate_background`:
either a decoded response (only its `success` field is consulted) or a
network error. -/
inductive ServerOutcome where
  | response (success : Bool)
  | networkError
deriving DecidableEq, Repr

/-- Model of Rust's `str::split('-')` at the character level: splits at every
`'-'`, keeping empty groups (`split` on `""` yields `[""]`). -/
def splitDashChars (l : List Char) : List (List Char) :=
  match l with
  | [] => [[]]
  | c :: rest =>
    if c = '-' then [] :: splitDashChars rest
    else
      match splitDashChars rest with
      | [] => [[c]]
      | g :: gs => (c :: g) :: gs

/-- `key.split('-').collect::<Vec<_>>()`. -/
def splitDash (s : String) : List String :=
  (splitDashChars s.data).map String.mk

namespace LicenseManager

/-- `mask_license_key` (license/manager.rs lines 380-387). With fewer than 4
dash-separated groups the mask is `"****"`; otherwise
`parts[0] ++ "-****-****-" ++ parts[parts.len()-1]` (the indexing is total in
the source because `parts.len() >= 4`; here it is rendered with
`head?`/`getLast?`). -/
def mask_license_key (key : String) : String :=
  let parts := splitDash key
  if parts.length ≥ 4 then
    (parts.head?.getD "") ++ "-****-****-" ++ (parts.getLast?.getD "")
  else "****"

/-- `LicenseManager::calculate_trial_status`: returns
(is_valid, trial_ends_at). -/
def calculate_trial_status (data : LicenseData) (current_utc : Int) :
    Bool × Option Int :=
  match data.trial_started_at with
  | some trial_start =>
    let trial_end := trial_start + TRIAL_DURATION_SECS
    (decide (current_utc < trial_end) && ! data.has_license, some trial_end)
  | none => (false, none)

/-- `LicenseManager::calculate_license_status`: returns
(is_valid, needs_validation, in_grace_period, grace_period_ends_at). -/
def calculate_license_status (data : LicenseData) (current_utc : Int) :
    Bool × Bool × Bool × Option Int :=
  if data.license_key.isNone then (false, false, false, none)
  else
    let last_validated := data.last_validated_at.getD 0
    let time_since_validation := current_utc - last_validated
    let needs_validation := decide (time_since_validation > VALIDATION_INTERVAL_SECS)
    let in_grace_period := decide (time_since_validation > VALIDATION_INTERVAL_SECS) &&
      decide (time_since_validation ≤ GRACE_PERIOD_SECS)
    let grace_period_ends_at :=
      if in_grace_period then some (last_validated + GRACE_PERIOD_SECS) else none
    let is_valid := decide (time_since_validation ≤ GRACE_PERIOD_SECS)
    (is_valid, needs_validation, in_grace_period, grace_period_ends_at)

/-- The watermark write-back performed by `get_status` on a sane clock:
`data.last_seen_utc_time = current_utc; data.update_signature()`. -/
def watermark_update (data : LicenseData) (current_utc : Int) : LicenseData :=
  ({ data with last_seen_utc_time := current_utc } : LicenseData).update_signature

/-- `LicenseManager::get_status` (lines 188-234), with the store interaction
made explicit: the input is the store's load result, the output is the status
together with the record written back (`none` when no write occurs; save
errors are discarded by the source). -/
def get_status (load : Except LicenseError LicenseData) (current_utc : Int) :
    LicenseStatus × Option LicenseData :=
  match load with
  | .error _ => (LicenseStatus.default, none)
  | .ok data =>
    let time_tamper_detected := decide (current_utc < data.last_seen_utc_time)
    let data' := if time_tamper_detected then data else watermark_update data current_utc
    let write := if time_tamper_detected then none else some data'
    let trial := calculate_trial_status data' current_utc
    let lic := calculate_license_status data' current_utc
    let is_pro := ! time_tamper_detected && (trial.1 || lic.1)
    let masked_key := data'.license_key.map mask_license_key
    ({ is_pro := is_pro
       is_trial := trial.1 && ! time_tamper_detected
       trial_ends_at := trial.2
       license_key := masked_key
       activated_at := data'.activated_at
       last_validated_at := data'.last_validated_at
       needs_validation := lic.2.1
       in_grace_period := lic.2.2.1
       grace_period_ends_at := lic.2.2.2
       time_tamper_detected := time_tamper_detected }, write)

/-- `LicenseManager::ensure_trial_initialized` (lines 90-109): the result is
the record written (`none` when no write occurs); `device_id` is the
manager's fingerprint and `now` models the `Utc::now()` reads (including the
one inside `create_trial`'s `LicenseData::new_trial`). -/
def ensure_trial_initialized (device_id : String)
    (load : Except LicenseError LicenseData) (now : Int) :
    Except LicenseError (Option LicenseData) :=
  match load with
  | .ok data =>
    if data.trial_started_at.isNone && ! data.trial_used then
      let data' : LicenseData :=
        { data with trial_started_at := some now, last_seen_utc_time := now }
      .ok (some data'.update_signature)
    else .ok none
  | .error .NotFound => .ok (some (LicenseData.new_trial device_id now))
  | .error e => .error e

/-- The downgrade performed by `validate_background` when the server answers
`success=false` or when a network error hits after the grace period: clear
`license_key`, `activated_at`, `last_validated_at` and re-sign (the identical
code appears at lines 322-327 and 361-366). -/
def downgrade_record (data : LicenseData) : LicenseData :=
  ({ data with
      license_key := none
      activated_at := none
      last_validated_at := none } : LicenseData).update_signature

/-- `LicenseManager::validate_background` (lines 278-376). `current_utc` is
the time read before the server call (tamper check and grace arithmetic);
`now2` models the later `Utc::now()` reads inside `update_validation_time` /
`update_seen_time_and_signature`. The pair in the result is (returned
`ValidationResult`, record written back if any). -/
def validate_background (load : Except LicenseError LicenseData)
    (current_utc now2 : Int) (server : ServerOutcome) :
    Except LicenseError (ValidationResult × Option LicenseData) :=
  match load with
  | .error .NotFound => .ok (⟨false, false, false⟩, none)
  | .error e => .error e
  | .ok data =>
    match data.license_key with
    | none => .ok (⟨false, false, false⟩, none)
    | some _ =>
      let time_tampered := decide (current_utc < data.last_seen_utc_time)
      match server with
      | .response true =>
        let data' := data.update_validation_time now2 now2
        .ok (⟨true, false, false⟩, some data')
      | .response false =>
        .ok (⟨false, true, false⟩, some (downgrade_record data))
      | .networkError =>
        if time_tampered then .ok (⟨false, false, false⟩, none)
        else
          let last_validated := data.last_validated_at.getD 0
          let time_since_validation := current_utc - last_validated
          if time_since_validation ≤ GRACE_PERIOD_SECS then
            .ok (⟨false, false, true⟩, some (data.update_seen_time_and_signature now2))
          else
            .ok (⟨false, true, false⟩, some (downgrade_record data))

end LicenseManager

/-! ### Supporting lemmas -/

theorem decValue_append_digit (l : List Char) (c : Char) :
    decValue (l ++ [c]) = 10 * decValue l + (c.toNat - 48) := by
  simp [decValue, List.foldl_append]

theorem digitChar_val {d : Nat} (h : d < 10) : (Nat.digitChar d).toNat - 48 = d := by
  revert h
  exact fun h => by
    have : ∀ d : Nat, d < 10 → (Nat.digitChar d).toNat - 48 = d := by decide
    exact this d h

theorem decValue_natDecCharsGo :
    ∀ fuel n : Nat, n < fuel → decValue (natDecCharsGo fuel n) = n := by
  intro fuel
  induction fuel with
  | zero => intro n h; omega
  | succ fuel ih =>
    intro n h
    rw [natDecCharsGo]
    split
    · next h10 => simp [decValue, digitChar_val h10]
    · next h10 =>
      rw [decValue_append_digit, ih (n / 10) (by omega),
        digitChar_val (Nat.mod_lt n (by omega))]
      omega

theorem decValue_natDecChars (n : Nat) : decValue (natDecChars n) = n :=
  decValue_natDecCharsGo (n + 1) n (by omega)

theorem natDecChars_inj {n m : Nat} (h : natDecChars n = natDecChars m) : n = m := by
  have := congrArg decValue h
  rwa [decValue_natDecChars, decValue_natDecChars] at this

theorem natDecCharsGo_digits :
    ∀ fuel n : Nat, ∀ c ∈ natDecCharsGo fuel n, 48 ≤ c.toNat ∧ c.toNat ≤ 57 := by
  intro fuel
  have hd : ∀ d : Nat, d < 10 → 48 ≤ (Nat.digitChar d).toNat ∧ (Nat.digitChar d).toNat ≤ 57 := by
    decide
  induction fuel with
  | zero => intro n c hc; simp [natDecCharsGo] at hc
  | succ fuel ih =>
    intro n c hc
    rw [natDecCharsGo] at hc
    split at hc
    · next h =>
      simp at hc
      exact hc ▸ hd n h
    · next h =>
      rcases List.mem_append.mp hc with h1 | h2
      · exact ih (n / 10) c h1
      · simp at h2
        exact h2 ▸ hd (n % 10) (Nat.mod_lt n (by omega))

theorem natDecChars_digits {n : Nat} {c : Char} (hc : c ∈ natDecChars n) :
    48 ≤ c.toNat ∧ c.toNat ≤ 57 :=
  natDecCharsGo_digits (n + 1) n c hc

theorem natDecChars_ne_nil (n : Nat) : natDecChars n ≠ [] := by
  rw [natDecChars, natDecCharsGo]
  split <;> simp

theorem natDecimal_inj {n m : Nat} (h : natDecimal n = natDecimal m) : n = m := by
  have : natDecChars n = natDecChars m := congrArg String.data h
  exact natDecChars_inj this

theorem neg_ne_natDecimal (a b : Nat) : "-" ++ natDecimal a ≠ natDecimal b := by
  intro h
  have hdata : '-' :: natDecChars a = natDecChars b := by
    have := congrArg String.data h
    simpa [String.data_append, natDecimal] using this
  have hmem : ('-' : Char) ∈ natDecChars b := by
    rw [← hdata]; exact List.mem_cons_self _ _
  have h48 := (natDecChars_digits hmem).1
  have : ('-' : Char).toNat = 45 := by decide
  omega

theorem intDecimal_inj {i j : Int} (h : intDecimal i = intDecimal j) : i = j := by
  unfold intDecimal at h
  split_ifs at h with h1 h2 h2
  · have : i.natAbs = j.natAbs := by
      have hs : natDecimal i.natAbs = natDecimal j.natAbs := by
        have := congrArg String.data h
        simp [String.data_append] at this
        exact congrArg String.mk this
      exact natDecimal_inj hs
    omega
  · exact absurd h (neg_ne_natDecimal _ _)
  · exact absurd h.symm (neg_ne_natDecimal _ _)
  · have : i.natAbs = j.natAbs := natDecimal_inj h
    omega

theorem colon_peel {a x y : List Char} (h : a ++ ':' :: x = a ++ ':' :: y) : x = y := by
  have := List.append_cancel_left h
  exact (List.cons.injEq _ _ _ _).mp this |>.2

theorem msg6_inj1 {a a' b c d e f : List Char}
    (h : msg6 a b c d e f = msg6 a' b c d e f) : a = a' := by
  unfold msg6 at h
  exact List.append_cancel_right h

theorem msg6_inj2 {a b b' c d e f : List Char}
    (h : msg6 a b c d e f = msg6 a b' c d e f) : b = b' := by
  unfold msg6 at h
  exact List.append_cancel_right (colon_peel h)

theorem msg6_inj3 {a b c c' d e f : List Char}
    (h : msg6 a b c d e f = msg6 a b c' d e f) : c = c' := by
  unfold msg6 at h
  exact List.append_cancel_right (colon_peel (colon_peel h))

theorem msg6_inj4 {a b c d d' e f : List Char}
    (h : msg6 a b c d e f = msg6 a b c d' e f) : d = d' := by
  unfold msg6 at h
  exact List.append_cancel_right (colon_peel (colon_peel (colon_peel h)))

theorem msg6_inj5 {a b c d e e' f : List Char}
    (h : msg6 a b c d e f = msg6 a b c d e' f) : e = e' := by
  unfold msg6 at h
  exact List.append_cancel_right (colon_peel (colon_peel (colon_peel (colon_peel h))))

theorem msg6_inj6 {a b c d e f f' : List Char}
    (h : msg6 a b c d e f = msg6 a b c d e f') : f = f' := by
  unfold msg6 at h
  exact colon_peel (colon_peel (colon_peel (colon_peel (colon_peel h))))


theorem string_data_inj {s t : String} (h : s.data = t.data) : s = t := by
  cases s; cases t; simp_all

theorem colon_data : (":" : String).data = [':'] := rfl

theorem intDecimal_data_inj {i j : Int} (h : (intDecimal i).data = (intDecimal j).data) :
    i = j :=
  intDecimal_inj (string_data_inj h)

theorem boolDecimal_data_inj {b b' : Bool} (h : (boolDecimal b).data = (boolDecimal b').data) :
    b = b' := by
  cases b <;> cases b' <;> simp_all [boolDecimal]

/-- The canonical license message, viewed as a six-component `msg6`. -/
theorem license_msg_data (lk : String) (aa lva tsa : Int) (tu : Bool) (lst : Int) :
    (lk ++ ":" ++ intDecimal aa ++ ":" ++ intDecimal lva ++ ":" ++ intDecimal tsa ++ ":" ++
      boolDecimal tu ++ ":" ++ intDecimal lst).data
    = msg6 lk.data (intDecimal aa).data (intDecimal lva).data (intDecimal tsa).data
        (boolDecimal tu).data (intDecimal lst).data := by
  simp [msg6, String.data_append, colon_data, List.append_assoc]

/-- The canonical credential message, viewed as a six-component `msg6`. -/
theorem cred_msg_data (at_ rt : String) (ea : Int) (em fo : String) :
    (at_ ++ ":" ++ rt ++ ":" ++ intDecimal ea ++ ":" ++ em ++ ":" ++ fo ++ ":" ++
      CREDENTIALS_SALT).data
    = msg6 at_.data rt.data (intDecimal ea).data em.data fo.data CREDENTIALS_SALT.data := by
  simp [msg6, String.data_append, colon_data, List.append_assoc]

theorem LicenseData.verify_eq_true_iff {r : LicenseData} :
    r.verify_signature = true ↔ r.signature = r.compute_signature_internal := by
  simp [LicenseData.verify_signature]

theorem LicenseData.verify_eq_false_iff {r : LicenseData} :
    r.verify_signature = false ↔ r.signature ≠ r.compute_signature_internal := by
  simp [LicenseData.verify_signature]

theorem StoredCredentials.cred_verify_eq_true_iff {c : StoredCredentials} :
    c.verify_signature = true ↔ c.signature = c.compute_signature_internal := by
  simp [StoredCredentials.verify_signature]

theorem StoredCredentials.cred_verify_eq_false_iff {c : StoredCredentials} :
    c.verify_signature = false ↔ c.signature ≠ c.compute_signature_internal := by
  simp [StoredCredentials.verify_signature]

/-- A record whose stored tag equals the old recomputed tag fails verification
as soon as its recomputed tag changed. -/
theorem LicenseData.tamper_helper {r r' : LicenseData}
    (hr : r.verify_signature = true) (hsig : r'.signature = r.signature)
    (hne : r'.compute_signature_internal ≠ r.compute_signature_internal) :
    r'.verify_signature = false := by
  rw [LicenseData.verify_eq_false_iff, hsig, LicenseData.verify_eq_true_iff.mp hr]
  exact fun h => hne h.symm

theorem StoredCredentials.cred_tamper_helper {c c' : StoredCredentials}
    (hc : c.verify_signature = true) (hsig : c'.signature = c.signature)
    (hne : c'.compute_signature_internal ≠ c.compute_signature_internal) :
    c'.verify_signature = false := by
  rw [StoredCredentials.cred_verify_eq_false_iff, hsig, StoredCredentials.cred_verify_eq_true_iff.mp hc]
  exact fun h => hne h.symm

/-- Equal license tags force equal keys and equal canonical messages, split
into the six message components at the character level. -/
theorem LicenseData.cs_eq_components {r r' : LicenseData}
    (h : r.compute_signature_internal = r'.compute_signature_internal) :
    r.device_id = r'.device_id ∧
      msg6 (r.license_key.getD "").data (intDecimal (r.activated_at.getD 0)).data
        (intDecimal (r.last_validated_at.getD 0)).data
        (intDecimal (r.trial_started_at.getD 0)).data
        (boolDecimal r.trial_used).data (intDecimal r.last_seen_utc_time).data
      = msg6 (r'.license_key.getD "").data (intDecimal (r'.activated_at.getD 0)).data
        (intDecimal (r'.last_validated_at.getD 0)).data
        (intDecimal (r'.trial_started_at.getD 0)).data
        (boolDecimal r'.trial_used).data (intDecimal r'.last_seen_utc_time).data := by
  simp only [LicenseData.compute_signature_internal, LicenseData.compute_signature,
    hmacSha256Hex, MacTag.mk.injEq] at h
  exact ⟨h.1, by rw [← license_msg_data, ← license_msg_data, h.2]⟩

theorem StoredCredentials.cred_cs_eq_components {c c' : StoredCredentials}
    (h : c.compute_signature_internal = c'.compute_signature_internal) :
    c.device_id = c'.device_id ∧
      msg6 c.access_token.data c.refresh_token.data (intDecimal c.expires_at).data
        (c.user_email.getD "").data (c.folder_id.getD "").data CREDENTIALS_SALT.data
      = msg6 c'.access_token.data c'.refresh_token.data (intDecimal c'.expires_at).data
        (c'.user_email.getD "").data (c'.folder_id.getD "").data CREDENTIALS_SALT.data := by
  simp only [StoredCredentials.compute_signature_internal, hmacSha256Hex,
    MacTag.mk.injEq] at h
  exact ⟨h.1, by rw [← cred_msg_data, ← cred_msg_data, h.2]⟩

theorem LicenseData.tamper_license_key {r : LicenseData} (hr : r.verify_signature = true)
    (lk : Option String) (hv : lk.getD "" ≠ r.license_key.getD "") :
    ({ r with license_key := lk } : LicenseData).verify_signature = false := by
  refine LicenseData.tamper_helper hr rfl fun h => ?_
  have hc := (LicenseData.cs_eq_components h).2
  dsimp only at hc
  exact hv (string_data_inj (msg6_inj1 hc))

theorem LicenseData.tamper_activated_at {r : LicenseData} (hr : r.verify_signature = true)
    (v : Option Int) (hv : v.getD 0 ≠ r.activated_at.getD 0) :
    ({ r with activated_at := v } : LicenseData).verify_signature = false := by
  refine LicenseData.tamper_helper hr rfl fun h => ?_
  have hc := (LicenseData.cs_eq_components h).2
  dsimp only at hc
  exact hv (intDecimal_data_inj (msg6_inj2 hc))

theorem LicenseData.tamper_last_validated_at {r : LicenseData} (hr : r.verify_signature = true)
    (v : Option Int) (hv : v.getD 0 ≠ r.last_validated_at.getD 0) :
    ({ r with last_validated_at := v } : LicenseData).verify_signature = false := by
  refine LicenseData.tamper_helper hr rfl fun h => ?_
  have hc := (LicenseData.cs_eq_components h).2
  dsimp only at hc
  exact hv (intDecimal_data_inj (msg6_inj3 hc))

theorem LicenseData.tamper_trial_started_at {r : LicenseData} (hr : r.verify_signature = true)
    (v : Option Int) (hv : v.getD 0 ≠ r.trial_started_at.getD 0) :
    ({ r with trial_started_at := v } : LicenseData).verify_signature = false := by
  refine LicenseData.tamper_helper hr rfl fun h => ?_
  have hc := (LicenseData.cs_eq_components h).2
  dsimp only at hc
  exact hv (intDecimal_data_inj (msg6_inj4 hc))

theorem LicenseData.tamper_trial_used {r : LicenseData} (hr : r.verify_signature = true)
    (b : Bool) (hv : b ≠ r.trial_used) :
    ({ r with trial_used := b } : LicenseData).verify_signature = false := by
  refine LicenseData.tamper_helper hr rfl fun h => ?_
  have hc := (LicenseData.cs_eq_components h).2
  dsimp only at hc
  exact hv (boolDecimal_data_inj (msg6_inj5 hc))

theorem LicenseData.tamper_last_seen {r : LicenseData} (hr : r.verify_signature = true)
    (t : Int) (hv : t ≠ r.last_seen_utc_time) :
    ({ r with last_seen_utc_time := t } : LicenseData).verify_signature = false := by
  refine LicenseData.tamper_helper hr rfl fun h => ?_
  have hc := (LicenseData.cs_eq_components h).2
  dsimp only at hc
  exact hv (intDecimal_data_inj (msg6_inj6 hc))

theorem LicenseData.tamper_device_id {r : LicenseData} (hr : r.verify_signature = true)
    (d : String) (hv : d ≠ r.device_id) :
    ({ r with device_id := d } : LicenseData).verify_signature = false := by
  refine LicenseData.tamper_helper hr rfl fun h => ?_
  have hc := (LicenseData.cs_eq_components h).1
  dsimp only at hc
  exact hv hc

theorem StoredCredentials.tamper_access_token {c : StoredCredentials}
    (hc : c.verify_signature = true) (v : String) (hv : v ≠ c.access_token) :
    ({ c with access_token := v } : StoredCredentials).verify_signature = false := by
  refine StoredCredentials.cred_tamper_helper hc rfl fun h => ?_
  have h2 := (StoredCredentials.cred_cs_eq_components h).2
  dsimp only at h2
  exact hv (string_data_inj (msg6_inj1 h2))

theorem StoredCredentials.tamper_refresh_token {c : StoredCredentials}
    (hc : c.verify_signature = true) (v : String) (hv : v ≠ c.refresh_token) :
    ({ c with refresh_token := v } : StoredCredentials).verify_signature = false := by
  refine StoredCredentials.cred_tamper_helper hc rfl fun h => ?_
  have h2 := (StoredCredentials.cred_cs_eq_components h).2
  dsimp only at h2
  exact hv (string_data_inj (msg6_inj2 h2))

theorem StoredCredentials.tamper_expires_at {c : StoredCredentials}
    (hc : c.verify_signature = true) (v : Int) (hv : v ≠ c.expires_at) :
    ({ c with expires_at := v } : StoredCredentials).verify_signature = false := by
  refine StoredCredentials.cred_tamper_helper hc rfl fun h => ?_
  have h2 := (StoredCredentials.cred_cs_eq_components h).2
  dsimp only at h2
  exact hv (intDecimal_data_inj (msg6_inj3 h2))

theorem StoredCredentials.tamper_user_email {c : StoredCredentials}
    (hc : c.verify_signature = true) (v : Option String) (hv : v.getD "" ≠ c.user_email.getD "") :
    ({ c with user_email := v } : StoredCredentials).verify_signature = false := by
  refine StoredCredentials.cred_tamper_helper hc rfl fun h => ?_
  have h2 := (StoredCredentials.cred_cs_eq_components h).2
  dsimp only at h2
  exact hv (string_data_inj (msg6_inj4 h2))

theorem StoredCredentials.tamper_folder_id {c : StoredCredentials}
    (hc : c.verify_signature = true) (v : Option String) (hv : v.getD "" ≠ c.folder_id.getD "") :
    ({ c with folder_id := v } : StoredCredentials).verify_signature = false := by
  refine StoredCredentials.cred_tamper_helper hc rfl fun h => ?_
  have h2 := (StoredCredentials.cred_cs_eq_components h).2
  dsimp only at h2
  exact hv (string_data_inj (msg6_inj5 h2))

theorem StoredCredentials.cred_tamper_device_id {c : StoredCredentials}
    (hc : c.verify_signature = true) (d : String) (hv : d ≠ c.device_id) :
    ({ c with device_id := d } : StoredCredentials).verify_signature = false := by
  refine StoredCredentials.cred_tamper_helper hc rfl fun h => ?_
  have h2 := (StoredCredentials.cred_cs_eq_components h).1
  dsimp only at h2
  exact hv h2

/-- Records built by the constructors carry the freshly recomputed tag. -/
theorem LicenseData.new_with_license_verifies
    (license_key device_id : String) (activated_at last_validated_at now : Int) :
    (LicenseData.new_with_license license_key device_id activated_at
      last_validated_at now).verify_signature = true := by
  rw [LicenseData.verify_eq_true_iff]
  rfl

theorem LicenseData.new_trial_verifies (device_id : String) (now : Int) :
    (LicenseData.new_trial device_id now).verify_signature = true := by
  rw [LicenseData.verify_eq_true_iff]
  rfl

theorem StoredCredentials.new_verifies (device_id access_token refresh_token : String)
    (expires_at : Int) (user_email folder_id : Option String) :
    (StoredCredentials.new device_id access_token refresh_token expires_at
      user_email folder_id).verify_signature = true := by
  rw [StoredCredentials.cred_verify_eq_true_iff]
  rfl

theorem append_cancel_salt {d1 d2 s : String} (h : d1 ++ s = d2 ++ s) : d1 = d2 := by
  have hd : d1.data ++ s.data = d2.data ++ s.data := by
    simpa [String.data_append] using congrArg String.data h
  exact string_data_inj (List.append_cancel_right hd)

/-! ### Claims -/

/-- C1, counterexample: the claim fails on the license store. A decoded
record whose HMAC verifies but whose `device_id` (`"deviceB"`) differs from
the store's fingerprint (`"deviceA"`) makes `LicenseStore::load` return
`SignatureInvalid` — not `DeviceMismatch`, a variant `LicenseError` does not
even have — and the file is not deleted. -/
theorem claim_C1_counterexample :
    ((⟨"deviceA"⟩ : LicenseStore).postDecrypt (LicenseData.new_trial "deviceB" 0)).result
      = .error .SignatureInvalid ∧
    ((⟨"deviceA"⟩ : LicenseStore).postDecrypt (LicenseData.new_trial "deviceB" 0)).deleted
      = false ∧
    (LicenseData.new_trial "deviceB" 0).verify_signature = true ∧
    (LicenseData.new_trial "deviceB" 0).device_id ≠ "deviceA" :=
  ⟨rfl, rfl, by decide, by decide⟩

/-- C1, amended: the credential store validates in the claimed order
(`device_id` mismatch → delete + `DeviceMismatch`, then HMAC failure →
delete + `SignatureInvalid`), but the license store verifies the HMAC first
and then `device_id`, returns `SignatureInvalid` in both cases, and never
deletes the file. -/
theorem claim_C1_amended :
    (∀ (s : CredentialStore) (c : StoredCredentials), c.device_id ≠ s.device_id →
      s.postDecrypt c = ⟨.error .DeviceMismatch, true⟩) ∧
    (∀ (s : CredentialStore) (c : StoredCredentials), c.device_id = s.device_id →
      c.verify_signature = false → s.postDecrypt c = ⟨.error .SignatureInvalid, true⟩) ∧
    (∀ (s : CredentialStore) (c : StoredCredentials), c.device_id = s.device_id →
      c.verify_signature = true → s.postDecrypt c = ⟨.ok c, false⟩) ∧
    (∀ (s : LicenseStore) (d : LicenseData), d.verify_signature = false →
      s.postDecrypt d = ⟨.error .SignatureInvalid, false⟩) ∧
    (∀ (s : LicenseStore) (d : LicenseData), d.verify_signature = true →
      d.device_id ≠ s.device_id → s.postDecrypt d = ⟨.error .SignatureInvalid, false⟩) ∧
    (∀ (s : LicenseStore) (d : LicenseData), d.verify_signature = true →
      d.device_id = s.device_id → s.postDecrypt d = ⟨.ok d, false⟩) := by
  refine ⟨?_, ?_, ?_, ?_, ?_, ?_⟩
  · intro s c h
    simp [CredentialStore.postDecrypt, h]
  · intro s c h hv
    simp [CredentialStore.postDecrypt, h, hv]
  · intro s c h hv
    simp [CredentialStore.postDecrypt, h, hv]
  · intro s d hv
    simp [LicenseStore.postDecrypt, hv]
  · intro s d hv h
    simp [LicenseStore.postDecrypt, hv, h]
  · intro s d hv h
    simp [LicenseStore.postDecrypt, hv, h]

/-- C1, witness: the amended theorem applied to concrete stores and
records. -/
theorem claim_C1_witness :
    ((⟨"A"⟩ : CredentialStore).postDecrypt (StoredCredentials.new "B" "t" "r" 9 none none)
      = ⟨.error .DeviceMismatch, true⟩) ∧
    ((⟨"A"⟩ : CredentialStore).postDecrypt
        { StoredCredentials.new "A" "t" "r" 9 none none with access_token := "x" }
      = ⟨.error .SignatureInvalid, true⟩) ∧
    ((⟨"A"⟩ : CredentialStore).postDecrypt (StoredCredentials.new "A" "t" "r" 9 none none)
      = ⟨.ok (StoredCredentials.new "A" "t" "r" 9 none none), false⟩) ∧
    ((⟨"A"⟩ : LicenseStore).postDecrypt { LicenseData.new_trial "A" 3 with trial_used := true }
      = ⟨.error .SignatureInvalid, false⟩) ∧
    ((⟨"A"⟩ : LicenseStore).postDecrypt (LicenseData.new_trial "B" 3)
      = ⟨.error .SignatureInvalid, false⟩) ∧
    ((⟨"A"⟩ : LicenseStore).postDecrypt (LicenseData.new_trial "A" 3)
      = ⟨.ok (LicenseData.new_trial "A" 3), false⟩) :=
  ⟨claim_C1_amended.1 _ _ (by decide),
   claim_C1_amended.2.1 _ _ (by decide) (by decide),
   claim_C1_amended.2.2.1 _ _ (by decide) (by decide),
   claim_C1_amended.2.2.2.1 _ _ (by decide),
   claim_C1_amended.2.2.2.2.1 _ _ (by decide) (by decide),
   claim_C1_amended.2.2.2.2.2 _ _ (by decide) (by decide)⟩

/-- C2, counterexample: loading a file saved under fingerprint `"deviceA"`
with a store under `"deviceB"` fails at the AEAD stage and the file is NOT
deleted (the claim asserts it is deleted); the license store moreover reports
`CryptoError`, not a `DecryptFailed`/`DeviceMismatch` kind. -/
theorem claim_C2_counterexample :
    ((⟨"deviceB"⟩ : CredentialStore).load (some ((⟨"deviceA"⟩ : CredentialStore).save
        (StoredCredentials.new "deviceA" "tok" "ref" 100 none none)))).deleted = false ∧
    ((⟨"deviceB"⟩ : CredentialStore).load (some ((⟨"deviceA"⟩ : CredentialStore).save
        (StoredCredentials.new "deviceA" "tok" "ref" 100 none none)))).result
      = .error .DecryptionFailed ∧
    ((⟨"deviceB"⟩ : LicenseStore).load (some ((⟨"deviceA"⟩ : LicenseStore).save
        (LicenseData.new_trial "deviceA" 0)))).deleted = false ∧
    ((⟨"deviceB"⟩ : LicenseStore).load (some ((⟨"deviceA"⟩ : LicenseStore).save
        (LicenseData.new_trial "deviceA" 0)))).result
      = .error (.CryptoError "Decryption failed") :=
  ⟨rfl, rfl, rfl, rfl⟩

/-- C2, amended: for distinct fingerprints D1 ≠ D2, loading a file saved
under D1 with a store under D2 fails with the store's decryption-failure
error (`DecryptionFailed` for credentials, `CryptoError "Decryption failed"`
for licenses) and the file is NOT deleted. -/
theorem claim_C2_amended (d1 d2 : String) (hne : d1 ≠ d2) :
    (∀ c : StoredCredentials,
      (⟨d2⟩ : CredentialStore).load (some ((⟨d1⟩ : CredentialStore).save c))
        = ⟨.error .DecryptionFailed, false⟩) ∧
    (∀ r : LicenseData,
      (⟨d2⟩ : LicenseStore).load (some ((⟨d1⟩ : LicenseStore).save r))
        = ⟨.error (.CryptoError "Decryption failed"), false⟩) := by
  constructor
  · intro c
    have hkey : d1 ++ CREDENTIALS_SALT ≠ d2 ++ CREDENTIALS_SALT :=
      fun h => hne (append_cancel_salt h)
    simp [CredentialStore.load, CredentialStore.save, CredentialStore.derive_encryption_key,
      hkey]
  · intro r
    have hkey : d1 ++ "nekotick_license_v1" ≠ d2 ++ "nekotick_license_v1" :=
      fun h => hne (append_cancel_salt h)
    simp [LicenseStore.load, LicenseStore.save, LicenseStore.derive_encryption_key, hkey]

/-- C2, witness: the amended theorem at fingerprints `"A"` and `"B"`. -/
theorem claim_C2_witness :
    ((⟨"B"⟩ : CredentialStore).load (some ((⟨"A"⟩ : CredentialStore).save
        (StoredCredentials.new "A" "t" "r" 5 none none)))
      = ⟨.error .DecryptionFailed, false⟩) ∧
    ((⟨"B"⟩ : LicenseStore).load (some ((⟨"A"⟩ : LicenseStore).save
        (LicenseData.new_trial "A" 0)))
      = ⟨.error (.CryptoError "Decryption failed"), false⟩) :=
  ⟨(claim_C2_amended "A" "B" (by decide)).1 _, (claim_C2_amended "A" "B" (by decide)).2 _⟩

/-- C3: on a `get_status` call with `current_utc ≥ last_seen_utc_time` the
manager writes back the record with `last_seen_utc_time = current_utc`
(hence the watermark is non-decreasing across successive calls under a
non-rewound clock) and reports `time_tamper_detected = false`; with
`current_utc < last_seen_utc_time` no write occurs, `time_tamper_detected =
true` and `is_pro = false`. -/
theorem claim_C3 (r : LicenseData) (t1 t2 : Int) :
    (r.last_seen_utc_time ≤ t1 →
      (LicenseManager.get_status (.ok r) t1).1.time_tamper_detected = false ∧
      (LicenseManager.get_status (.ok r) t1).2 = some (LicenseManager.watermark_update r t1) ∧
      (LicenseManager.watermark_update r t1).last_seen_utc_time = t1 ∧
      r.last_seen_utc_time ≤ (LicenseManager.watermark_update r t1).last_seen_utc_time ∧
      (t1 ≤ t2 →
        (LicenseManager.get_status (.ok (LicenseManager.watermark_update r t1)) t2).1.time_tamper_detected = false ∧
        (LicenseManager.get_status (.ok (LicenseManager.watermark_update r t1)) t2).2
          = some (LicenseManager.watermark_update (LicenseManager.watermark_update r t1) t2) ∧
        (LicenseManager.watermark_update r t1).last_seen_utc_time ≤
          (LicenseManager.watermark_update (LicenseManager.watermark_update r t1) t2).last_seen_utc_time)) ∧
    (t1 < r.last_seen_utc_time →
      (LicenseManager.get_status (.ok r) t1).1.time_tamper_detected = true ∧
      (LicenseManager.get_status (.ok r) t1).1.is_pro = false ∧
      (LicenseManager.get_status (.ok r) t1).2 = none) := by
  have hw : ∀ (d : LicenseData) (t : Int),
      (LicenseManager.watermark_update d t).last_seen_utc_time = t := by
    intro d t
    simp [LicenseManager.watermark_update, LicenseData.update_signature]
  constructor
  · intro h1
    have hn1 : ¬ t1 < r.last_seen_utc_time := not_lt.mpr h1
    refine ⟨?_, ?_, hw r t1, by rw [hw]; exact h1, ?_⟩
    · simp [LicenseManager.get_status, hn1]
    · simp [LicenseManager.get_status, hn1]
    · intro h2
      have hn2 : ¬ t2 < (LicenseManager.watermark_update r t1).last_seen_utc_time := by
        rw [hw]; exact not_lt.mpr h2
      refine ⟨?_, ?_, ?_⟩
      · simp [LicenseManager.get_status, hn2]
      · simp [LicenseManager.get_status, hn2]
      · rw [hw, hw]; exact h2
  · intro h1
    refine ⟨?_, ?_, ?_⟩ <;> simp [LicenseManager.get_status, h1]

/-- C3, witness: the theorem at a concrete trial record (watermark 5) and
times 7, 9 (sane clock) and at time 3 (rewound clock). -/
theorem claim_C3_witness :
    (LicenseData.new_trial "d" 5).last_seen_utc_time ≤ 7 ∧ (7 : Int) ≤ 9 ∧
    (3 : Int) < (LicenseData.new_trial "d" 5).last_seen_utc_time ∧
    (LicenseManager.get_status (.ok (LicenseData.new_trial "d" 5)) 7).1.time_tamper_detected
      = false ∧
    (LicenseManager.get_status (.ok (LicenseData.new_trial "d" 5)) 7).2
      = some (LicenseManager.watermark_update (LicenseData.new_trial "d" 5) 7) ∧
    (LicenseManager.get_status (.ok (LicenseData.new_trial "d" 5)) 3).1.time_tamper_detected
      = true ∧
    (LicenseManager.get_status (.ok (LicenseData.new_trial "d" 5)) 3).1.is_pro = false ∧
    (LicenseManager.get_status (.ok (LicenseData.new_trial "d" 5)) 3).2 = none :=
  ⟨by decide, by decide, by decide,
   ((claim_C3 (LicenseData.new_trial "d" 5) 7 9).1 (by decide)).1,
   ((claim_C3 (LicenseData.new_trial "d" 5) 7 9).1 (by decide)).2.1,
   ((claim_C3 (LicenseData.new_trial "d" 5) 3 3).2 (by decide)).1,
   ((claim_C3 (LicenseData.new_trial "d" 5) 3 3).2 (by decide)).2.1,
   ((claim_C3 (LicenseData.new_trial "d" 5) 3 3).2 (by decide)).2.2⟩

/-- C4: for a record with a license key and `last_validated_at = lv`,
`calculate_license_status` at elapsed `VALIDATION_INTERVAL` (259200 s) is
fresh (valid, no validation needed, not in grace); at `VALIDATION_INTERVAL +
1` it is grace (valid, needs validation, in grace, grace end = lv +
GRACE_PERIOD); at `GRACE_PERIOD + 1` (604801 s elapsed) it is lapsed
(invalid, not in grace). -/
theorem claim_C4 (r : LicenseData) (k : String) (lv : Int)
    (h1 : r.license_key = some k) (h2 : r.last_validated_at = some lv) :
    VALIDATION_INTERVAL_SECS = 259200 ∧ GRACE_PERIOD_SECS = 604800 ∧
    LicenseManager.calculate_license_status r (lv + VALIDATION_INTERVAL_SECS)
      = (true, false, false, none) ∧
    LicenseManager.calculate_license_status r (lv + VALIDATION_INTERVAL_SECS + 1)
      = (true, true, true, some (lv + GRACE_PERIOD_SECS)) ∧
    LicenseManager.calculate_license_status r (lv + GRACE_PERIOD_SECS + 1)
      = (false, true, false, none) := by
  refine ⟨by norm_num [VALIDATION_INTERVAL_SECS], by norm_num [GRACE_PERIOD_SECS], ?_, ?_, ?_⟩ <;>
    simp [LicenseManager.calculate_license_status, h1, h2, VALIDATION_INTERVAL_SECS,
      GRACE_PERIOD_SECS] <;>
    omega

/-- C4, witness: the theorem at a concrete licensed record validated at 0. -/
theorem claim_C4_witness :
    LicenseManager.calculate_license_status
        (LicenseData.new_with_license "k" "d" 0 0 0) 259200 = (true, false, false, none) ∧
    LicenseManager.calculate_license_status
        (LicenseData.new_with_license "k" "d" 0 0 0) 259201 = (true, true, true, some 604800) ∧
    LicenseManager.calculate_license_status
        (LicenseData.new_with_license "k" "d" 0 0 0) 604801 = (false, true, false, none) := by
  have h := claim_C4 (LicenseData.new_with_license "k" "d" 0 0 0) "k" 0 (by decide) (by decide)
  refine ⟨?_, ?_, ?_⟩
  · have := h.2.2.1
    norm_num [VALIDATION_INTERVAL_SECS] at this
    exact this
  · have := h.2.2.2.1
    norm_num [VALIDATION_INTERVAL_SECS, GRACE_PERIOD_SECS] at this
    exact this
  · have := h.2.2.2.2
    norm_num [GRACE_PERIOD_SECS] at this
    exact this

/-- C5: both server-driven downgrade paths of `validate_background` (server
answers `success = false`; network error with the grace period exceeded on a
sane clock) write back `downgrade_record r`, which clears `license_key`,
`activated_at` and `last_validated_at` and preserves `device_id`,
`trial_started_at`, `trial_used` and `last_seen_utc_time`. -/
theorem claim_C5 (r : LicenseData) (k : String) (h : r.license_key = some k) (t1 t2 : Int) :
    LicenseManager.validate_background (.ok r) t1 t2 (.response false)
      = .ok (⟨false, true, false⟩, some (LicenseManager.downgrade_record r)) ∧
    (¬ t1 < r.last_seen_utc_time →
      GRACE_PERIOD_SECS < t1 - r.last_validated_at.getD 0 →
      LicenseManager.validate_background (.ok r) t1 t2 .networkError
        = .ok (⟨false, true, false⟩, some (LicenseManager.downgrade_record r))) ∧
    (LicenseManager.downgrade_record r).license_key = none ∧
    (LicenseManager.downgrade_record r).activated_at = none ∧
    (LicenseManager.downgrade_record r).last_validated_at = none ∧
    (LicenseManager.downgrade_record r).device_id = r.device_id ∧
    (LicenseManager.downgrade_record r).trial_started_at = r.trial_started_at ∧
    (LicenseManager.downgrade_record r).trial_used = r.trial_used ∧
    (LicenseManager.downgrade_record r).last_seen_utc_time = r.last_seen_utc_time := by
  refine ⟨?_, ?_, rfl, rfl, rfl, rfl, rfl, rfl, rfl⟩
  · simp [LicenseManager.validate_background, h]
  · intro ht hg
    have hgn : ¬ t1 - r.last_validated_at.getD 0 ≤ GRACE_PERIOD_SECS := not_le.mpr hg
    simp [LicenseManager.validate_background, h, ht, hgn]

/-- C5, witness: the theorem at a concrete licensed record (validated at 0,
watermark 0) with the network-error call at time 604801. -/
theorem claim_C5_witness :
    LicenseManager.validate_background (.ok (LicenseData.new_with_license "k" "d" 0 0 0))
        604801 604802 (.response false)
      = .ok (⟨false, true, false⟩,
          some (LicenseManager.downgrade_record (LicenseData.new_with_license "k" "d" 0 0 0))) ∧
    LicenseManager.validate_background (.ok (LicenseData.new_with_license "k" "d" 0 0 0))
        604801 604802 .networkError
      = .ok (⟨false, true, false⟩,
          some (LicenseManager.downgrade_record (LicenseData.new_with_license "k" "d" 0 0 0))) ∧
    (LicenseManager.downgrade_record (LicenseData.new_with_license "k" "d" 0 0 0)).trial_used
      = (LicenseData.new_with_license "k" "d" 0 0 0).trial_used :=
  ⟨(claim_C5 (LicenseData.new_with_license "k" "d" 0 0 0) "k" (by decide) 604801 604802).1,
   (claim_C5 (LicenseData.new_with_license "k" "d" 0 0 0) "k" (by decide) 604801 604802).2.1
     (by decide) (by decide),
   (claim_C5 (LicenseData.new_with_license "k" "d" 0 0 0) "k" (by decide) 604801 604802).2.2.2.2.2.2.2.1⟩

/-- C6, counterexample: a constructor-built record tolerates one covered-field
change: changing `license_key` of a fresh trial record from `None` to
`Some ""` (a different value) leaves `verify_signature() = true`, because the
canonical message encodes both as the empty string. -/
theorem claim_C6_counterexample :
    ({ LicenseData.new_trial "device" 5 with license_key := some "" }
      : LicenseData).verify_signature = true ∧
    some "" ≠ (LicenseData.new_trial "device" 5).license_key :=
  ⟨by decide, by decide⟩

/-- C6, amended: every constructor-built record verifies; on any verifying
record, changing `device_id`, or changing any other signature-covered field
to a value with a different canonical encoding (strings as themselves,
optional strings via unwrap-or-`""`, optional timestamps via unwrap-or-`0`,
booleans as `true`/`false`), makes `verify_signature()` return false. The
only single-field changes that survive are `None ↔ Some ""` on optional
strings and `None ↔ Some 0` on optional timestamps, whose encodings
coincide. -/
theorem claim_C6_amended :
    (∀ (lk d : String) (aa lva now : Int),
      (LicenseData.new_with_license lk d aa lva now).verify_signature = true) ∧
    (∀ (d : String) (now : Int), (LicenseData.new_trial d now).verify_signature = true) ∧
    (∀ (d at_ rt : String) (ea : Int) (em fo : Option String),
      (StoredCredentials.new d at_ rt ea em fo).verify_signature = true) ∧
    (∀ r : LicenseData, r.verify_signature = true →
      (∀ lk : Option String, lk.getD "" ≠ r.license_key.getD "" →
        ({ r with license_key := lk } : LicenseData).verify_signature = false) ∧
      (∀ v : Option Int, v.getD 0 ≠ r.activated_at.getD 0 →
        ({ r with activated_at := v } : LicenseData).verify_signature = false) ∧
      (∀ v : Option Int, v.getD 0 ≠ r.last_validated_at.getD 0 →
        ({ r with last_validated_at := v } : LicenseData).verify_signature = false) ∧
      (∀ v : Option Int, v.getD 0 ≠ r.trial_started_at.getD 0 →
        ({ r with trial_started_at := v } : LicenseData).verify_signature = false) ∧
      (∀ b : Bool, b ≠ r.trial_used →
        ({ r with trial_used := b } : LicenseData).verify_signature = false) ∧
      (∀ t : Int, t ≠ r.last_seen_utc_time →
        ({ r with last_seen_utc_time := t } : LicenseData).verify_signature = false) ∧
      (∀ d : String, d ≠ r.device_id →
        ({ r with device_id := d } : LicenseData).verify_signature = false)) ∧
    (∀ c : StoredCredentials, c.verify_signature = true →
      (∀ v : String, v ≠ c.access_token →
        ({ c with access_token := v } : StoredCredentials).verify_signature = false) ∧
      (∀ v : String, v ≠ c.refresh_token →
        ({ c with refresh_token := v } : StoredCredentials).verify_signature = false) ∧
      (∀ v : Int, v ≠ c.expires_at →
        ({ c with expires_at := v } : StoredCredentials).verify_signature = false) ∧
      (∀ v : Option String, v.getD "" ≠ c.user_email.getD "" →
        ({ c with user_email := v } : StoredCredentials).verify_signature = false) ∧
      (∀ v : Option String, v.getD "" ≠ c.folder_id.getD "" →
        ({ c with folder_id := v } : StoredCredentials).verify_signature = false) ∧
      (∀ d : String, d ≠ c.device_id →
        ({ c with device_id := d } : StoredCredentials).verify_signature = false)) := by
  refine ⟨LicenseData.new_with_license_verifies, LicenseData.new_trial_verifies,
    StoredCredentials.new_verifies, fun r hr => ?_, fun c hc => ?_⟩
  · exact ⟨LicenseData.tamper_license_key hr, LicenseData.tamper_activated_at hr,
      LicenseData.tamper_last_validated_at hr, LicenseData.tamper_trial_started_at hr,
      LicenseData.tamper_trial_used hr, LicenseData.tamper_last_seen hr,
      LicenseData.tamper_device_id hr⟩
  · exact ⟨StoredCredentials.tamper_access_token hc, StoredCredentials.tamper_refresh_token hc,
      StoredCredentials.tamper_expires_at hc, StoredCredentials.tamper_user_email hc,
      StoredCredentials.tamper_folder_id hc, StoredCredentials.cred_tamper_device_id hc⟩

/-- C6, witness: the amended theorem at a concrete trial record, a concrete
licensed record and a concrete credential record, with one tampering per
covered field. -/
theorem claim_C6_witness :
    (LicenseData.new_with_license "k-1" "dev" 10 11 12).verify_signature = true ∧
    (LicenseData.new_trial "dev" 7).verify_signature = true ∧
    (StoredCredentials.new "dev" "acc" "ref" 30 (some "e@x.y") none).verify_signature = true ∧
    ({ LicenseData.new_with_license "k-1" "dev" 10 11 12 with license_key := some "other" }
      : LicenseData).verify_signature = false ∧
    ({ LicenseData.new_with_license "k-1" "dev" 10 11 12 with activated_at := some 99 }
      : LicenseData).verify_signature = false ∧
    ({ LicenseData.new_with_license "k-1" "dev" 10 11 12 with last_validated_at := none }
      : LicenseData).verify_signature = false ∧
    ({ LicenseData.new_with_license "k-1" "dev" 10 11 12 with trial_started_at := some 1 }
      : LicenseData).verify_signature = false ∧
    ({ LicenseData.new_with_license "k-1" "dev" 10 11 12 with trial_used := false }
      : LicenseData).verify_signature = false ∧
    ({ LicenseData.new_with_license "k-1" "dev" 10 11 12 with last_seen_utc_time := 13 }
      : LicenseData).verify_signature = false ∧
    ({ LicenseData.new_with_license "k-1" "dev" 10 11 12 with device_id := "dev2" }
      : LicenseData).verify_signature = false ∧
    ({ StoredCredentials.new "dev" "acc" "ref" 30 (some "e@x.y") none with access_token := "a2" }
      : StoredCredentials).verify_signature = false ∧
    ({ StoredCredentials.new "dev" "acc" "ref" 30 (some "e@x.y") none with refresh_token := "r2" }
      : StoredCredentials).verify_signature = false ∧
    ({ StoredCredentials.new "dev" "acc" "ref" 30 (some "e@x.y") none with expires_at := 31 }
      : StoredCredentials).verify_signature = false ∧
    ({ StoredCredentials.new "dev" "acc" "ref" 30 (some "e@x.y") none with user_email := none }
      : StoredCredentials).verify_signature = false ∧
    ({ StoredCredentials.new "dev" "acc" "ref" 30 (some "e@x.y") none with folder_id := some "f" }
      : StoredCredentials).verify_signature = false ∧
    ({ StoredCredentials.new "dev" "acc" "ref" 30 (some "e@x.y") none with device_id := "dev2" }
      : StoredCredentials).verify_signature = false :=
  ⟨claim_C6_amended.1 "k-1" "dev" 10 11 12,
   claim_C6_amended.2.1 "dev" 7,
   claim_C6_amended.2.2.1 "dev" "acc" "ref" 30 (some "e@x.y") none,
   (claim_C6_amended.2.2.2.1 _ (by decide)).1 (some "other") (by decide),
   (claim_C6_amended.2.2.2.1 _ (by decide)).2.1 (some 99) (by decide),
   (claim_C6_amended.2.2.2.1 _ (by decide)).2.2.1 none (by decide),
   (claim_C6_amended.2.2.2.1 _ (by decide)).2.2.2.1 (some 1) (by decide),
   (claim_C6_amended.2.2.2.1 _ (by decide)).2.2.2.2.1 false (by decide),
   (claim_C6_amended.2.2.2.1 _ (by decide)).2.2.2.2.2.1 13 (by decide),
   (claim_C6_amended.2.2.2.1 _ (by decide)).2.2.2.2.2.2 "dev2" (by decide),
   (claim_C6_amended.2.2.2.2 _ (by decide)).1 "a2" (by decide),
   (claim_C6_amended.2.2.2.2 _ (by decide)).2.1 "r2" (by decide),
   (claim_C6_amended.2.2.2.2 _ (by decide)).2.2.1 31 (by decide),
   (claim_C6_amended.2.2.2.2 _ (by decide)).2.2.2.1 none (by decide),
   (claim_C6_amended.2.2.2.2 _ (by decide)).2.2.2.2.1 (some "f") (by decide),
   (claim_C6_amended.2.2.2.2 _ (by decide)).2.2.2.2.2 "dev2" (by decide)⟩

/-- C7: `is_token_expiring()` returns true exactly when
`expires_at - now < 300`. -/
theorem claim_C7 (c : StoredCredentials) (now : Int) :
    c.is_token_expiring now = true ↔ c.expires_at - now < 300 := by
  simp [StoredCredentials.is_token_expiring]

/-- C8: on every load error `get_status` swallows the error, returns the
all-false/absent default status, and performs no write. -/
theorem claim_C8 (e : LicenseError) (current_utc : Int) :
    LicenseManager.get_status (.error e) current_utc = (LicenseStatus.default, none) ∧
    LicenseStatus.default.is_pro = false ∧
    LicenseStatus.default.is_trial = false ∧
    LicenseStatus.default.needs_validation = false ∧
    LicenseStatus.default.in_grace_period = false ∧
    LicenseStatus.default.time_tamper_detected = false ∧
    LicenseStatus.default.trial_ends_at = none ∧
    LicenseStatus.default.license_key = none ∧
    LicenseStatus.default.activated_at = none ∧
    LicenseStatus.default.last_validated_at = none ∧
    LicenseStatus.default.grace_period_ends_at = none :=
  ⟨rfl, rfl, rfl, rfl, rfl, rfl, rfl, rfl, rfl, rfl, rfl⟩

/-- C9: `ensure_trial_initialized` performs no write on a record with
`trial_used = true` and `trial_started_at` absent (the state
`new_with_license` leaves on a device that never had a trial), and it writes
only when no record exists (`NotFound`) or when `trial_started_at` is absent
with `trial_used = false`. -/
theorem claim_C9 :
    (∀ (d : String) (r : LicenseData) (now : Int),
      r.trial_used = true → r.trial_started_at = none →
      LicenseManager.ensure_trial_initialized d (.ok r) now = .ok none) ∧
    (∀ (lk d : String) (aa lva now : Int),
      (LicenseData.new_with_license lk d aa lva now).trial_used = true ∧
      (LicenseData.new_with_license lk d aa lva now).trial_started_at = none) ∧
    (∀ (d : String) (load : Except LicenseError LicenseData) (now : Int) (w : LicenseData),
      LicenseManager.ensure_trial_initialized d load now = .ok (some w) →
      load = .error .NotFound ∨
        ∃ r, load = .ok r ∧ r.trial_started_at = none ∧ r.trial_used = false) := by
  refine ⟨?_, ?_, ?_⟩
  · intro d r now h1 h2
    simp [LicenseManager.ensure_trial_initialized, h1, h2]
  · intro lk d aa lva now
    exact ⟨rfl, rfl⟩
  · intro d load now w h
    match load with
    | .ok r =>
      by_cases hcond : r.trial_started_at.isNone && ! r.trial_used
      · refine Or.inr ⟨r, rfl, ?_, ?_⟩
        · rcases Bool.and_eq_true .. |>.mp hcond with ⟨h1, _⟩
          exact Option.isNone_iff_eq_none.mp h1
        · rcases Bool.and_eq_true .. |>.mp hcond with ⟨_, h2⟩
          simpa using h2
      · simp [LicenseManager.ensure_trial_initialized, hcond] at h
    | .error .NotFound => exact Or.inl rfl
    | .error (.DeviceIdError m) => simp [LicenseManager.ensure_trial_initialized] at h
    | .error (.StorageError m) => simp [LicenseManager.ensure_trial_initialized] at h
    | .error .SignatureInvalid => simp [LicenseManager.ensure_trial_initialized] at h
    | .error (.CryptoError m) => simp [LicenseManager.ensure_trial_initialized] at h
    | .error (.NetworkError m) => simp [LicenseManager.ensure_trial_initialized] at h
    | .error (.ApiError a b) => simp [LicenseManager.ensure_trial_initialized] at h
    | .error .TimeTamperingDetected => simp [LicenseManager.ensure_trial_initialized] at h
    | .error (.SerializationError m) => simp [LicenseManager.ensure_trial_initialized] at h

/-- C9, witness: no write on the licensed-without-trial record; a write on
`NotFound` is classified by the theorem's third part. -/
theorem claim_C9_witness :
    LicenseManager.ensure_trial_initialized "d"
        (.ok (LicenseData.new_with_license "k" "d" 1 2 3)) 9 = .ok none ∧
    ((.error .NotFound : Except LicenseError LicenseData) = .error .NotFound ∨
      ∃ r, (.error .NotFound : Except LicenseError LicenseData) = .ok r ∧
        r.trial_started_at = none ∧ r.trial_used = false) :=
  ⟨claim_C9.1 "d" (LicenseData.new_with_license "k" "d" 1 2 3) 9 (by decide) (by decide),
   claim_C9.2.2 "d" (.error .NotFound) 4 (LicenseData.new_trial "d" 4) rfl⟩

/-- C10: `mask_license_key` yields exactly `"****"` when the key has fewer
than 4 dash-separated groups, and `first-****-****-last` with 4 or more
groups; `get_status` reports the license key only through this mask. -/
theorem claim_C10 (key : String) :
    ((splitDash key).length < 4 → LicenseManager.mask_license_key key = "****") ∧
    ((splitDash key).length ≥ 4 →
      LicenseManager.mask_license_key key
        = ((splitDash key).head?.getD "") ++ "-****-****-" ++
          ((splitDash key).getLast?.getD "")) ∧
    (∀ (r : LicenseData) (now : Int),
      (LicenseManager.get_status (.ok r) now).1.license_key
        = r.license_key.map LicenseManager.mask_license_key) := by
  refine ⟨?_, ?_, ?_⟩
  · intro h
    simp [LicenseManager.mask_license_key]
    omega
  · intro h
    simp [LicenseManager.mask_license_key, h]
  · intro r now
    by_cases ht : now < r.last_seen_utc_time <;>
      simp [LicenseManager.get_status, ht, LicenseManager.watermark_update,
        LicenseData.update_signature]

/-- C10, witness: the mask at concrete keys with 4 groups and with a single
group, and the status mask at a concrete record. -/
theorem claim_C10_witness :
    LicenseManager.mask_license_key "NEKO-ABCD-EFGH-1234" = "NEKO-****-****-1234" ∧
    LicenseManager.mask_license_key "SHORT" = "****" ∧
    (LicenseManager.get_status (.ok (LicenseData.new_with_license "NEKO-ABCD-EFGH-1234" "d" 0 0 0)) 1).1.license_key
      = some "NEKO-****-****-1234" := by
  refine ⟨?_, ?_, ?_⟩
  · have h := (claim_C10 "NEKO-ABCD-EFGH-1234").2.1 (by decide)
    exact h.trans (by decide)
  · exact (claim_C10 "SHORT").1 (by decide)
  · have h := (claim_C10 "NEKO-ABCD-EFGH-1234").2.2
      (LicenseData.new_with_license "NEKO-ABCD-EFGH-1234" "d" 0 0 0) 1
    exact h.trans (by decide)

end NekoTick
